import Mathlib

/-!
Verification development for the LinkedIn lead-scraper repository.

The definitions below are shallow embeddings of the Python source:
`db.py` (the sent-jobs dedup store) and `app.py` (text normalization and
fingerprinting, the AI filter stage and heuristic overrides, the
send-and-persist dispatch loop, the pause/OTP endpoints and the admin
purge endpoints).  Machine-level concerns (sqlite, HTTP, Selenium) are
modelled by explicit parameters describing the outcome of each external
call; everything the Python logic itself decides is translated directly.
-/

namespace LinkedIn

/-! ## Character classes (ASCII fragment of Python `re` classes)

The texts handled by the claims are ASCII plus U+00B7 (the "·" separator
LinkedIn uses); on this alphabet Python's `str.lower`, `\d`, `\s` and `\w`
coincide with the ASCII definitions used here ("·" is neither a word
character, a digit nor whitespace in Python). -/

def isDigitChar (c : Char) : Bool := '0' ≤ c && c ≤ '9'

def isSpaceChar (c : Char) : Bool :=
  c = ' ' || c = '\t' || c = '\n' || c = '\r' || c = Char.ofNat 11 || c = Char.ofNat 12

def isWordChar (c : Char) : Bool := c.isAlpha || isDigitChar c || c = '_'

/-- Python `str.lower` on the ASCII fragment. -/
def pyLower (s : List Char) : List Char := s.map Char.toLower

/-- Python `str.strip()`: drop leading and trailing whitespace. -/
def pyStrip (s : List Char) : List Char :=
  ((s.dropWhile isSpaceChar).reverse.dropWhile isSpaceChar).reverse

def pyStripStr (s : String) : String := String.mk (pyStrip s.data)

def pyLowerStr (s : String) : String := String.mk (pyLower s.data)

/-- Python substring test `needle in hay` (contiguous substring). -/
def containsSub (needle : List Char) : List Char → Bool
  | [] => needle.isEmpty
  | c :: t => needle.isPrefixOf (c :: t) || containsSub needle t

def containsSubStr (hay needle : String) : Bool := containsSub needle.data hay.data

/-! ## A small matcher for the regexes of `_normalize_text_for_id`

Each pattern of the source is compiled by hand to a function
`Option Char → List Char → Option (List Char × List Char)`: given the
character preceding the current position (for the `\b` tests) and the
rest of the input it returns the matched chunk and the remainder.  All
patterns start with a word character, so the leading `\b` holds exactly
when the preceding character is absent or not a word character; they end
with a word character, so the trailing `\b` holds exactly when the next
character is absent or not a word character. -/

/-- Leading `\b` for a pattern that starts with a word character. -/
def boundaryBefore : Option Char → Bool
  | none => true
  | some c => !isWordChar c

/-- Trailing `\b` for a pattern that ends with a word character. -/
def boundaryAfter : List Char → Bool
  | [] => true
  | c :: _ => !isWordChar c

/-- First alternative (in the order written in the source regex) that is a
prefix of the input and is followed by a word boundary; returns the matched
alternative and the remainder.  This is how Python's backtracking resolves
`(?:h|hr|...)\b`: alternatives are tried left to right and the trailing
`\b` rejects an alternative that stops inside a word. -/
def matchAltB (alts : List (List Char)) (s : List Char) : Option (List Char × List Char) :=
  match alts with
  | [] => none
  | a :: rest =>
    if a.isPrefixOf s then
      let r := s.drop a.length
      if boundaryAfter r then some (a, r) else matchAltB rest s
    else matchAltB rest s

/-- `\b\d+\s*(?:unit alternatives)\b`.  Maximal `\d+` and `\s*` are faithful:
the unit alternatives start with letters, which are neither digits nor
whitespace, so Python's backtracking cannot profit from shorter runs. -/
def matchNumUnit (units : List (List Char)) (prev : Option Char) (s : List Char) :
    Option (List Char × List Char) :=
  if boundaryBefore prev then
    let ds := s.takeWhile isDigitChar
    if ds.isEmpty then none
    else
      let r1 := s.drop ds.length
      let ws := r1.takeWhile isSpaceChar
      let r2 := r1.drop ws.length
      match matchAltB units r2 with
      | some (u, rest) => some (ds ++ ws ++ u, rest)
      | none => none
  else none

/-- `\b\d+\s+word\b` with `\s+` nonempty (the likes/comments counters). -/
def matchNumWord (alts : List (List Char)) (prev : Option Char) (s : List Char) :
    Option (List Char × List Char) :=
  if boundaryBefore prev then
    let ds := s.takeWhile isDigitChar
    if ds.isEmpty then none
    else
      let r1 := s.drop ds.length
      let ws := r1.takeWhile isSpaceChar
      if ws.isEmpty then none
      else
        let r2 := r1.drop ws.length
        match matchAltB alts r2 with
        | some (u, rest) => some (ds ++ ws ++ u, rest)
        | none => none
  else none

/-- `\bliteral alternatives\b` (share/shares, follow/following, premium,
"just now"). -/
def matchWordAlt (alts : List (List Char)) (prev : Option Char) (s : List Char) :
    Option (List Char × List Char) :=
  if boundaryBefore prev then matchAltB alts s else none

/-- `re.sub(pattern, " ", s)`: scan left to right, replace every
non-overlapping match by a single space and continue after it.  The `\b`
of a later match is judged against the original characters, so the
carried "previous character" after a match is the last character of the
matched chunk.  Fuel is the input length; every pattern above consumes at
least one character, so the fuel never runs out on a real input. -/
def reSubAux (m : Option Char → List Char → Option (List Char × List Char)) :
    Nat → Option Char → List Char → List Char
  | 0, _, s => s
  | _ + 1, _, [] => []
  | fuel + 1, prev, c :: cs =>
    match m prev (c :: cs) with
    | some (matched, rest) => ' ' :: reSubAux m fuel matched.getLast? rest
    | none => c :: reSubAux m fuel (some c) cs

def reSub (m : Option Char → List Char → Option (List Char × List Char))
    (s : List Char) : List Char :=
  reSubAux m s.length none s

/-- `re.search(pattern, s) is not None` for the same class of patterns. -/
def reSearchAux (m : Option Char → List Char → Option (List Char × List Char)) :
    Option Char → List Char → Bool
  | _, [] => false
  | prev, c :: cs => (m prev (c :: cs)).isSome || reSearchAux m (some c) cs

def reSearch (m : Option Char → List Char → Option (List Char × List Char))
    (s : List Char) : Bool :=
  reSearchAux m none s

/-- `re.sub(r"\s+", " ", s)`: squeeze whitespace runs to one space. -/
def squeezeWs : Bool → List Char → List Char
  | _, [] => []
  | prevSpace, c :: cs =>
    if isSpaceChar c then
      if prevSpace then squeezeWs true cs else ' ' :: squeezeWs true cs
    else c :: squeezeWs false cs

/-! ## `_normalize_text_for_id` (app.py lines 222-247) -/

def timeUnits : List (List Char) :=
  ["h", "hr", "hrs", "hour", "hours", "m", "min", "mins", "minute", "minutes"].map String.data

def likesAlts : List (List Char) := ["likes", "like"].map String.data

def commentsAlts : List (List Char) := ["comments", "comment"].map String.data

def sharesAlts : List (List Char) := ["shares", "share"].map String.data

def followAlts : List (List Char) := ["following", "follow"].map String.data

def premiumAlts : List (List Char) := ["premium"].map String.data

def justNowAlts : List (List Char) := ["just now"].map String.data

def normalize_text_for_id (text : String) : String :=
  if text = "" then ""
  else
    let t := pyLower text.data
    let t := reSub (matchNumUnit timeUnits) t
    let t := reSub (matchWordAlt justNowAlts) t
    let t := reSub (matchNumWord likesAlts) t
    let t := reSub (matchNumWord commentsAlts) t
    let t := reSub (matchWordAlt sharesAlts) t
    let t := reSub (matchWordAlt followAlts) t
    let t := reSub (matchWordAlt premiumAlts) t
    String.mk (pyStrip (squeezeWs false t))

/-- `recent_time_re` (app.py line 1190):
`\b\d+\s*(?:h|hr|m|min)\b|just now|\bjust now\b|\b\d+\s*min\b` with
`re.IGNORECASE`; searching the lowercased text is equivalent because
lowercasing moves no character across the word/digit/space classes. -/
def recentUnits : List (List Char) := ["h", "hr", "m", "min"].map String.data

def recent_time_search (text : String) : Bool :=
  let low := pyLower text.data
  reSearch (matchNumUnit recentUnits) low || containsSub "just now".data low

/-! ## SHA-256 (`hashlib.sha256(...).hexdigest()`)

Straight FIPS 180-4 over byte lists, with 32-bit words as `Nat` reduced
modulo `2 ^ 32`. -/

def w32 (n : Nat) : Nat := n % 4294967296

def rotr (n x : Nat) : Nat := w32 ((x >>> n) ||| (x <<< (32 - n)))

def bsig0 (x : Nat) : Nat := (rotr 2 x) ^^^ (rotr 13 x) ^^^ (rotr 22 x)

def bsig1 (x : Nat) : Nat := (rotr 6 x) ^^^ (rotr 11 x) ^^^ (rotr 25 x)

def ssig0 (x : Nat) : Nat := (rotr 7 x) ^^^ (rotr 18 x) ^^^ (x >>> 3)

def ssig1 (x : Nat) : Nat := (rotr 17 x) ^^^ (rotr 19 x) ^^^ (x >>> 10)

def shaK : List Nat :=
  [1116352408, 1899447441, 3049323471, 3921009573, 961987163,
   1508970993, 2453635748, 2870763221, 3624381080, 310598401,
   607225278, 1426881987, 1925078388, 2162078206, 2614888103,
   3248222580, 3835390401, 4022224774, 264347078, 604807628,
   770255983, 1249150122, 1555081692, 1996064986, 2554220882,
   2821834349, 2952996808, 3210313671, 3336571891, 3584528711,
   113926993, 338241895, 666307205, 773529912, 1294757372,
   1396182291, 1695183700, 1986661051, 2177026350, 2456956037,
   2730485921, 2820302411, 3259730800, 3345764771, 3516065817,
   3600352804, 4094571909, 275423344, 430227734, 506948616,
   659060556, 883997877, 958139571, 1322822218, 1537002063,
   1747873779, 1955562222, 2024104815, 2227730452, 2361852424,
   2428436474, 2756734187, 3204031479, 3329325298]

def shaH0 : List Nat :=
  [1779033703, 3144134277, 1013904242, 2773480762,
   1359893119, 2600822924, 528734635, 1541459225]

def be64 (n : Nat) : List Nat :=
  [(n >>> 56) &&& 255, (n >>> 48) &&& 255, (n >>> 40) &&& 255, (n >>> 32) &&& 255,
   (n >>> 24) &&& 255, (n >>> 16) &&& 255, (n >>> 8) &&& 255, n &&& 255]

def padMsg (m : List Nat) : List Nat :=
  let L := m.length
  let k := (64 + 56 - ((L + 1) % 64)) % 64
  m ++ [0x80] ++ List.replicate k 0 ++ be64 (8 * L)

def toBlocks : Nat → List Nat → List (List Nat)
  | 0, _ => []
  | _ + 1, [] => []
  | fuel + 1, m => m.take 64 :: toBlocks fuel (m.drop 64)

/-- Bytes to big-endian 32-bit words (input length a multiple of 4). -/
def toWords : List Nat → List Nat
  | b0 :: b1 :: b2 :: b3 :: rest =>
    ((b0 <<< 24) ||| (b1 <<< 16) ||| (b2 <<< 8) ||| b3) :: toWords rest
  | _ => []

/-- Extend the 16 message words to the 64-entry schedule. -/
def schedule (ws : List Nat) : List Nat :=
  (List.range 48).foldl
    (fun w _ =>
      let n := w.length
      w ++ [w32 (ssig1 (w.getD (n - 2) 0) + w.getD (n - 7) 0 +
                 ssig0 (w.getD (n - 15) 0) + w.getD (n - 16) 0)])
    ws

def shaStep (st : List Nat) (wk : Nat × Nat) : List Nat :=
  match st with
  | [a, b, c, d, e, f, g, h] =>
    let ch := (e &&& f) ^^^ ((e ^^^ 0xffffffff) &&& g)
    let t1 := w32 (h + bsig1 e + ch + wk.2 + wk.1)
    let mj := (a &&& b) ^^^ (a &&& c) ^^^ (b &&& c)
    let t2 := w32 (bsig0 a + mj)
    [w32 (t1 + t2), a, b, c, w32 (d + t1), e, f, g]
  | st => st

def compressBlock (h : List Nat) (block : List Nat) : List Nat :=
  let ws := schedule (toWords block)
  let st := (ws.zip shaK).foldl shaStep h
  (h.zip st).map fun p => w32 (p.1 + p.2)

def sha256Bytes (m : List Nat) : List Nat :=
  let blocks := toBlocks (m.length / 64 + 2) (padMsg m)
  let h := blocks.foldl compressBlock shaH0
  h.flatMap fun w => [(w >>> 24) &&& 255, (w >>> 16) &&& 255, (w >>> 8) &&& 255, w &&& 255]

def hexDigit (n : Nat) : Char :=
  if n < 10 then Char.ofNat (48 + n) else Char.ofNat (87 + n)

def bytesToHex (bs : List Nat) : List Char :=
  bs.flatMap fun b => [hexDigit (b / 16), hexDigit (b % 16)]

/-- UTF-8 encoding of one character (`str.encode('utf-8')`). -/
def utf8Char (c : Char) : List Nat :=
  let n := c.toNat
  if n < 0x80 then [n]
  else if n < 0x800 then [0xc0 ||| (n >>> 6), 0x80 ||| (n &&& 0x3f)]
  else if n < 0x10000 then
    [0xe0 ||| (n >>> 12), 0x80 ||| ((n >>> 6) &&& 0x3f), 0x80 ||| (n &&& 0x3f)]
  else
    [0xf0 ||| (n >>> 18), 0x80 ||| ((n >>> 12) &&& 0x3f),
     0x80 ||| ((n >>> 6) &&& 0x3f), 0x80 ||| (n &&& 0x3f)]

def utf8Bytes (s : String) : List Nat := s.data.flatMap utf8Char

/-- `hashlib.sha256(s.encode('utf-8')).hexdigest()`. -/
def sha256Hex (s : String) : String := String.mk (bytesToHex (sha256Bytes (utf8Bytes s)))

/-! ## Fingerprints (app.py lines 1688-1689 and 1836)

When no stable anchor id was extracted, the feed path builds
`f"feed:{hashlib.sha256(_normalize_text_for_id(post_text).encode('utf-8')).hexdigest()}"`
and the keyword-search path builds
`f"txt:{hashlib.sha256((_normalize_text_for_id(text) + '|kw:' + kw).encode('utf-8')).hexdigest()}"`. -/

def feed_stable_id (post_text : String) : String :=
  "feed:" ++ sha256Hex (normalize_text_for_id post_text)

def search_stable_id (text kw : String) : String :=
  "txt:" ++ sha256Hex (normalize_text_for_id text ++ "|kw:" ++ kw)

/-! ## The dedup store (`db.py`, table `sent_jobs`)

A row of the sqlite table `sent_jobs (id TEXT PRIMARY KEY, payload, created_at)`.
The payload column stores `json.dumps(job)`; since serialization is injective
on the job dicts involved, the row keeps the job value itself.  sqlite
availability is an explicit `dbOk` parameter: `False` stands for the
`except` branch of `add_sent_job` (rollback, return False). -/

structure Job where
  id : Option String
  emails : List String
  deriving DecidableEq, Repr

structure SentRow where
  id : String
  payload : Job
  created_at : Nat
  deriving DecidableEq, Repr

abbrev Store := List SentRow

/-- Python truthiness of `job.get('id')`: `None` and `''` are falsy. -/
def idTruthy : Option String → Bool
  | none => false
  | some s => s ≠ ""

def storeHas (st : Store) (jid : String) : Bool := st.any (·.id = jid)

/-- `add_sent_job` (db.py lines 102-123): bail out on a falsy id, then
`INSERT OR IGNORE` and return True; on a sqlite error roll back and
return False. -/
def add_sent_job (job : Job) (now : Nat) (dbOk : Bool) (st : Store) : Bool × Store :=
  match job.id with
  | none => (false, st)
  | some jid =>
    if jid = "" then (false, st)
    else if dbOk then
      (true, if storeHas st jid then st else st ++ [⟨jid, job, now⟩])
    else (false, st)

/-! `get_sent_job_ids` (db.py lines 91-100) queries sqlite; the call either
returns the stored ids or raises.  In the pipeline model the outcome is the
parameter `dbRead : Except Unit (List String)`. -/

/-! ## Filtering already-sent jobs (app.py lines 2101-2121)

`scraper_task` reads the DB ids inside `try/except`; on an exception it
logs and continues with an empty set, then unions in the ids found in the
local JSON file, and keeps the jobs whose id is not in the union. -/

def sent_ids_after_read (dbRead : Except Unit (List String)) (fileIds : List String) :
    List String :=
  (match dbRead with
   | .ok ids => ids
   | .error _ => []) ++ fileIds

/-- Jobs built by the scraper always carry an `'id'` key (lines 1691-1699
and 1838-1847), so `job['id']` is read with default `""` here. -/
def filter_new_jobs (dbRead : Except Unit (List String)) (fileIds : List String)
    (jobs : List (Job × α)) : List (Job × α) :=
  jobs.filter fun j => !(sent_ids_after_read dbRead fileIds).contains (j.1.id.getD "")

/-! ## The send-and-persist loop (app.py lines 2243-2360)

Per job the SMTP interaction has three outcomes visible to the logic:
the recipient list parsed empty (the send is skipped with a log line),
the send succeeded, or the send raised (caught at line 2350).  In the
first two cases the code falls through to `add_sent_job` and appends the
job to `sent_jobs_local`; in the third the `except` skips both. -/

inductive SendOutcome
  | sendOk
  | skippedNoRecipients
  | sendFailed
  deriving DecidableEq, Repr

def dispatchStep (now : Nat) (acc : Store × List Job) (j : Job × SendOutcome) :
    Store × List Job :=
  match j.2 with
  | .sendFailed => acc
  | _ => ((add_sent_job j.1 now true acc.1).2, acc.2 ++ [j.1])

def dispatchLoop (st : Store) (jobs : List (Job × SendOutcome)) (now : Nat) :
    Store × List Job :=
  jobs.foldl (dispatchStep now) (st, [])

/-- The whole "filter new jobs, then send" phase of one run. -/
def run_send_phase (dbRead : Except Unit (List String)) (fileIds : List String)
    (jobs : List (Job × SendOutcome)) (st : Store) (now : Nat) : Store × List Job :=
  dispatchLoop st (filter_new_jobs dbRead fileIds jobs) now

/-! ## The AI filter stage `ai_is_usa_hiring_post` (app.py lines 577-707)

The HTTP call and JSON parsing are the environment; their outcome is the
constructor.  `ok` is a parsed `{hiring, usa, reason}` dict; `recovered`
is the 404 path whose one retry against a resolved model URL parsed
successfully; every other constructor is a failure of the backend call. -/

inductive AiOutcome
  | notConfigured
  | httpError (code : Option Nat) (msg : String)
  | recovered (hiring usa : Bool) (reason : String)
  | parseFailed
  | exn (msg : String)
  | ok (hiring usa : Bool) (reason : String)
  deriving DecidableEq, Repr

def isAiFailure : AiOutcome → Bool
  | .notConfigured => true
  | .httpError _ _ => true
  | .parseFailed => true
  | .exn _ => true
  | .recovered _ _ _ => false
  | .ok _ _ _ => false

/-- Python `str(bool)`. -/
def pyBoolStr (b : Bool) : String := if b then "True" else "False"

/-- `'hiring=%s usa=%s' % (hiring, usa)`. -/
def defaultAiReason (hiring usa : Bool) : String :=
  "hiring=" ++ pyBoolStr hiring ++ " usa=" ++ pyBoolStr usa

/-- `f"...{code}"` where `code` is `int` or `None`. -/
def codeRepr : Option Nat → String
  | none => "None"
  | some n => toString n

/-- The generic `except` branch: trim the query string off URLs, cap at
120 characters (lines 700-705). -/
def exnReasonMsg (emsg : String) : String :=
  let e := if containsSubStr emsg "http" && containsSubStr emsg "?"
           then String.mk (emsg.data.takeWhile (· ≠ '?'))
           else emsg
  String.mk (e.data.take 120)

def ai_is_usa_hiring_post : AiOutcome → Bool × String
  | .notConfigured => (true, "ai-disabled")
  | .httpError code msg =>
    (true, pyStripStr ("ai-error:http-" ++ codeRepr code ++
                       (if msg = "" then "" else " " ++ msg)))
  | .recovered hiring usa reason =>
    (hiring && usa, if reason = "" then defaultAiReason hiring usa else reason)
  | .parseFailed => (true, "ai-parse-failed")
  | .exn msg => (true, "ai-error:" ++ exnReasonMsg msg)
  | .ok hiring usa reason =>
    (hiring && usa, if reason = "" then defaultAiReason hiring usa else reason)

/-! ## Heuristic vocabularies and overrides (app.py lines 1536-1570) -/

def promo_terms : List String :=
  ["training", "course", "courses", "bootcamp", "boot camp", "enroll", "enrollment",
   "register", "registration", "demo", "free demo", "webinar", "workshop", "tutorial",
   "class", "classes", "coaching", "mentorship", "certificate", "certification",
   "mock interview", "interview prep", "interview preparation", "linkedin optimization",
   "resume service", "resume writing", "cv writing", "portfolio review", "career guidance",
   "placement assistance", "job support", "proxy support", "support available",
   "training batch", "new batch", "promo", "promotion", "offer", "discount", "sale",
   "paid course", "learn", "learning", "upskill", "reskill", "join our training",
   "guaranteed placement", "internship training", "fee", "fees", "tuition"]

def hiring_terms : List String :=
  ["hiring", "actively hiring", "hiring now", "we are hiring", "we’re hiring",
   "immediate hiring", "opening", "openings", "job opening", "job openings", "position",
   "positions", "role", "roles", "vacancy", "vacancies", "vacant", "opportunity",
   "opportunities", "apply", "apply now", "send resume", "send cv", "share resume",
   "share your resume", "resume to", "cv to", "email your resume", "refer candidates",
   "looking for", "we are looking for", "seeking", "need", "required", "requirement",
   "requirements", "recruiting", "recruitment", "recruiter", "talent acquisition",
   "contract", "c2c", "w2", "1099", "full-time", "full time", "fulltime", "part-time",
   "part time", "parttime", "contract to hire", "contract-to-hire", "temp to perm",
   "temp-to-perm", "immediate joiners", "start asap", "onsite", "on-site", "remote",
   "remote only", "hybrid", "work from home"]

def is_promo_training (text : String) : Bool :=
  promo_terms.any fun p => containsSubStr (pyLowerStr text) p

def seems_hiring (text : String) : Bool :=
  hiring_terms.any fun h => containsSubStr (pyLowerStr text) h

def is_disallowed_location (text : String) : Option String :=
  let low := pyLowerStr text
  if containsSubStr low "puerto rico" || containsSubStr low "#hpepuertorico" ||
     containsSubStr low " hpepuertorico"
  then some "puerto rico" else none

/-- The reject-only overrides applied to the classifier verdict
(app.py lines 1788-1798). -/
def apply_overrides (keep : Bool) (reason : String) (text : String) : Bool × String :=
  let kr :=
    if keep && is_promo_training text && !seems_hiring text
    then (false, reason ++ " | promo-training") else (keep, reason)
  if kr.1 then
    match is_disallowed_location text with
    | some loc => (false, kr.2 ++ " | non-usa-location: " ++ loc)
    | none => kr
  else kr

/-- One item through the recency gate, classifier and overrides
(the keyword-search loop body, app.py lines 1782-1810); a dropped item
is `(false, reason)`, and the `continue` before any reason exists is
`(false, "")`. -/
def evaluate_item (aiEnabled : Bool) (o : AiOutcome) (text : String) : Bool × String :=
  if !recent_time_search text then (false, "")
  else if aiEnabled then
    let kr := ai_is_usa_hiring_post o
    apply_overrides kr.1 kr.2 text
  else
    if is_promo_training text && !seems_hiring text then (false, "")
    else if (is_disallowed_location text).isSome then (false, "")
    else (true, "")

/-! ## Paused sessions and the resume protocol (app.py lines 1089-1113 and 3119-3368)

`paused_sessions` is the process-wide dict `token -> session metadata`;
tokens minted at line 1090 are unique, so the dict is keyed uniquely.
`driverOk` abstracts whether `sess['driver_ref']` is present and the
OTP injection into it succeeds (`injected` at lines 3133-3153). -/

structure PausedSession where
  created_at : Nat
  expires_at : Nat
  driverOk : Bool
  deriving DecidableEq, Repr

abbrev Sessions := List (String × PausedSession)

def lookupTok (m : Sessions) (t : String) : Option PausedSession :=
  (m.find? (·.1 = t)).map (·.2)

/-- `del paused_sessions[token]`. -/
def eraseTok (m : Sessions) (t : String) : Sessions := m.filter (·.1 ≠ t)

structure OtpResult where
  status : Nat
  sessions : Sessions
  resumeRequested : Bool
  deriving DecidableEq, Repr

set_option linter.unusedVariables false in
/-- `/api/submit-otp` (app.py lines 3119-3181).  `now` is the request's
wall-clock time; the handler receives it here to make visible that no
branch of the source consults it (`expires_at` is stored at line 1108
and never read back). -/
def api_submit_otp (token otp : Option String) (now : Nat) (injectOk : Bool)
    (m : Sessions) : OtpResult :=
  match token with
  | none => ⟨400, m, false⟩
  | some t =>
    if t = "" then ⟨400, m, false⟩
    else
      match lookupTok m t with
      | none => ⟨400, m, false⟩
      | some sess =>
        match otp with
        | none => ⟨400, m, false⟩
        | some o =>
          if o = "" then ⟨400, m, false⟩
          else if !sess.driverOk then ⟨500, m, false⟩
          else if !injectOk then ⟨500, m, false⟩
          else ⟨200, eraseTok m t, true⟩

/-- The shared token gate of `/api/remote/click`, `/api/remote/type` and
`/api/remote/key` (app.py lines 3195, 3287, 3333):
`if not token or token not in paused_sessions: return ..., 400`. -/
def remote_token_rejected (token : Option String) (m : Sessions) : Bool :=
  match token with
  | none => true
  | some t => t = "" || (lookupTok m t).isNone

/-- `/api/remote/click` status (app.py lines 3184-3275): token gate, x/y
parse, driver presence, then the click attempt (`performed`). -/
def api_remote_click (token : Option String) (xyOk : Bool) (performed : Bool)
    (m : Sessions) : Nat :=
  if remote_token_rejected token m then 400
  else if !xyOk then 400
  else
    match token with
    | none => 400
    | some t =>
      match lookupTok m t with
      | none => 400
      | some sess =>
        if !sess.driverOk then 500
        else if performed then 200 else 500

/-! ## Admin purges of the dedup store (app.py lines 2733-2955)

`AdminState` is the sqlite file: the live table plus the list of backup
copies sitting next to it.  `_create_pre_delete_backup` copies the DB
file (appending a snapshot) or fails returning None, after which the
handlers proceed regardless (`backupOk` is the copy outcome). -/

structure AdminState where
  store : Store
  backups : List Store
  deriving DecidableEq, Repr

/-- `_create_pre_delete_backup` (app.py lines 2774-2793). -/
def create_pre_delete_backup (backupOk : Bool) (s : AdminState) : AdminState :=
  if backupOk then { s with backups := s.backups ++ [s.store] } else s

/-- `/admin/sent-jobs/clear` (app.py lines 2733-2749): `DELETE FROM sent_jobs`
with no backup call anywhere in the handler. -/
def admin_clear_sent_jobs (s : AdminState) : AdminState × Nat :=
  ({ s with store := [] }, 200)

/-- `/admin/sent-jobs/delete-old` (app.py lines 2838-2883): collect ids with
parseable `created_at` before the cutoff, back up, then delete them. -/
def admin_delete_sent_jobs_older (cutoff : Nat) (backupOk : Bool) (s : AdminState) :
    AdminState × Nat :=
  let toDelete := (s.store.filter fun r => r.created_at < cutoff).map (·.id)
  let s1 := create_pre_delete_backup backupOk s
  ({ s1 with store := s1.store.filter fun r => !toDelete.contains r.id }, 200)

/-- `/admin/sent-jobs/delete` (app.py lines 2886-2911): 400 on an empty id
list, else back up then delete the listed ids. -/
def admin_delete_sent_jobs_by_ids (ids : List String) (backupOk : Bool) (s : AdminState) :
    AdminState × Nat :=
  if ids.isEmpty then (s, 400)
  else
    let s1 := create_pre_delete_backup backupOk s
    ({ s1 with store := s1.store.filter fun r => !ids.contains r.id }, 200)

/-- `/admin/sent-jobs/delete-by-email` (app.py lines 2914-2955): 400 on an
empty target, else back up then delete the rows whose payload emails
contain the target (compared stripped and lowercased). -/
def admin_delete_sent_jobs_by_email (email : String) (backupOk : Bool) (s : AdminState) :
    AdminState × Nat :=
  let target := pyLowerStr (pyStripStr email)
  if target = "" then (s, 400)
  else
    let s1 := create_pre_delete_backup backupOk s
    ({ s1 with store := s1.store.filter fun r =>
        !(r.payload.emails.any fun e => pyLowerStr (pyStripStr e) = target) }, 200)

/-! ## Helper lemmas -/

/-- A second `add_sent_job` with the same truthy id hits the
`INSERT OR IGNORE` no-op branch. -/
lemma add_sent_job_mem_noop (j : Job) (jid : String) (now : Nat) (st : Store)
    (hid : j.id = some jid) (hne : jid ≠ "") (hmem : storeHas st jid = true) :
    add_sent_job j now true st = (true, st) := by
  simp [add_sent_job, hid, hne, hmem]

/-- An `add_sent_job` with a truthy id that is not yet present appends a row. -/
lemma add_sent_job_new (j : Job) (jid : String) (now : Nat) (st : Store)
    (hid : j.id = some jid) (hne : jid ≠ "") (hmem : storeHas st jid = false) :
    add_sent_job j now true st = (true, st ++ [⟨jid, j, now⟩]) := by
  simp [add_sent_job, hid, hne, hmem]

/-- After a successful `add_sent_job` with a truthy id the row is present
(it was either already there or just appended). -/
lemma storeHas_add_sent_job (j : Job) (jid : String) (now : Nat) (st : Store)
    (hid : j.id = some jid) (hne : jid ≠ "") :
    storeHas (add_sent_job j now true st).2 jid = true := by
  by_cases h : storeHas st jid = true
  · rw [add_sent_job_mem_noop j jid now st hid hne h]
    exact h
  · rw [add_sent_job_new j jid now st hid hne (Bool.not_eq_true _ ▸ h)]
    simp [storeHas, List.any_append]

/-- Erasing a token really removes it from the session map. -/
lemma lookupTok_eraseTok (m : Sessions) (t : String) :
    lookupTok (eraseTok m t) t = none := by
  simp only [lookupTok, eraseTok, Option.map_eq_none']
  rw [List.find?_eq_none]
  intro x hx
  have := List.of_mem_filter hx
  simpa [decide_eq_true_eq] using this

/-- A submit-OTP request whose token is not in the map is rejected with 400
and no side effect. -/
lemma api_submit_otp_unknown (m : Sessions) (t : String) (otp : Option String)
    (now : Nat) (injectOk : Bool) (hl : lookupTok m t = none) :
    api_submit_otp (some t) otp now injectOk m = ⟨400, m, false⟩ := by
  by_cases ht : t = "" <;> simp [api_submit_otp, ht, hl]

/-- A substring of the right half is a substring of an appended list. -/
lemma containsSub_append_right (n a b : List Char) (h : containsSub n b = true) :
    containsSub n (a ++ b) = true := by
  induction a with
  | nil => simpa using h
  | cons c t ih =>
    simp only [List.cons_append, containsSub, Bool.or_eq_true]
    exact Or.inr ih

/-! ## Claim theorems -/

/-- C1, counterexample.  The claim says a failing dedup-store read
(`get_sent_job_ids` raising) suppresses delivery for the rest of the run.
In the code (app.py lines 2101-2121) the exception is caught, the id set
falls back to the JSON file (empty here), and the job is sent and
recorded anyway: the list of jobs sent in the run is nonempty. -/
theorem C1_counterexample :
    (run_send_phase (Except.error ()) [] [(⟨some "a", []⟩, SendOutcome.sendOk)] [] 0).2 ≠ [] := by
  decide

/-- C1, amended.  On a dedup-store read failure the dispatcher does not
suppress delivery: the run behaves exactly as if the store had returned
the empty id set, so only the ids recovered from the JSON fallback file
still filter jobs out. -/
theorem C1_store_error_falls_back_to_file
    (fileIds : List String) (jobs : List (Job × SendOutcome)) (st : Store) (now : Nat) :
    run_send_phase (Except.error ()) fileIds jobs st now =
      run_send_phase (Except.ok []) fileIds jobs st now ∧
    filter_new_jobs (Except.error ()) fileIds jobs =
      jobs.filter (fun j => !fileIds.contains (j.1.id.getD "")) := by
  exact ⟨rfl, rfl⟩

/-- C2, counterexample.  The claim says the second `add_sent_job` with the
same fingerprint returns `admitted=false`; in the code (db.py lines
102-123) the `INSERT OR IGNORE` leaves the row alone but the function
still returns `True` (its return value reports only the absence of a DB
error). -/
theorem C2_counterexample :
    ¬ ((add_sent_job ⟨some "a", []⟩ 1 true
        (add_sent_job ⟨some "a", []⟩ 0 true []).2).1 = false) := by
  decide

/-- C2, amended.  `add_sent_job` is idempotent on the store: a second call
with the same truthy id leaves the store unchanged (same size, original
payload and `created_at` intact), but it returns `True`, not `False`. -/
theorem C2_second_insert_is_noop (j : Job) (jid : String) (n1 n2 : Nat) (st : Store)
    (hid : j.id = some jid) (hne : jid ≠ "") :
    add_sent_job j n2 true (add_sent_job j n1 true st).2 =
      (true, (add_sent_job j n1 true st).2) := by
  exact add_sent_job_mem_noop j jid n2 _ hid hne (storeHas_add_sent_job j jid n1 st hid hne)

/-- Witness for `C2_second_insert_is_noop` at a concrete job and store. -/
theorem C2_second_insert_is_noop_witness :
    add_sent_job ⟨some "a", []⟩ 1 true (add_sent_job ⟨some "a", []⟩ 0 true []).2 =
      (true, (add_sent_job ⟨some "a", []⟩ 0 true []).2) :=
  C2_second_insert_is_noop ⟨some "a", []⟩ "a" 0 1 [] rfl (by decide)

/-- C3, counterexample.  The claim says a DeliveryRecord is persisted only
after a successful notification send.  In the code (app.py lines
2310-2344), when the recipient list parses empty the send is skipped with
a warning, yet control falls through to `add_sent_job`: a record for the
item is persisted although no send succeeded (or was even attempted). -/
theorem C3_counterexample :
    storeHas (dispatchLoop [] [(⟨some "a", []⟩, SendOutcome.skippedNoRecipients)] 0).1 "a"
      = true := by
  decide

/-- C3, amended.  A record is persisted exactly when the per-item send
block completes without an exception: on a send failure (SMTP raise,
caught at line 2350) neither the store nor the sent list changes, while
both a successful send and the skipped empty-recipient send persist the
record immediately. -/
theorem C3_persist_follows_send_block (st : Store) (sent : List Job) (j : Job)
    (jid : String) (now : Nat) (hid : j.id = some jid) (hne : jid ≠ "") :
    dispatchStep now (st, sent) (j, SendOutcome.sendFailed) = (st, sent) ∧
    storeHas (dispatchStep now (st, sent) (j, SendOutcome.sendOk)).1 jid = true ∧
    storeHas (dispatchStep now (st, sent) (j, SendOutcome.skippedNoRecipients)).1 jid
      = true := by
  refine ⟨rfl, ?_, ?_⟩ <;>
    exact storeHas_add_sent_job j jid now st hid hne

/-- Witness for `C3_persist_follows_send_block`. -/
theorem C3_persist_follows_send_block_witness :
    dispatchStep 0 ([], []) (⟨some "a", []⟩, SendOutcome.sendFailed) = ([], []) ∧
    storeHas (dispatchStep 0 ([], []) (⟨some "a", []⟩, SendOutcome.sendOk)).1 "a" = true ∧
    storeHas (dispatchStep 0 ([], []) (⟨some "a", []⟩, SendOutcome.skippedNoRecipients)).1 "a"
      = true :=
  C3_persist_follows_send_block [] [] ⟨some "a", []⟩ "a" 0 rfl (by decide)

/-- C10: a job whose `'id'` is absent or falsy makes `add_sent_job` return
False before touching the store (db.py lines 104-106). -/
theorem C10_falsy_id_is_noop (j : Job) (now : Nat) (dbOk : Bool) (st : Store)
    (h : idTruthy j.id = false) :
    add_sent_job j now dbOk st = (false, st) := by
  cases hid : j.id with
  | none => simp [add_sent_job, hid]
  | some s =>
    rw [hid] at h
    simp only [idTruthy, ne_eq, decide_not, Bool.not_eq_false', decide_eq_true_eq] at h
    simp [add_sent_job, hid, h]

/-- Witness for `C10_falsy_id_is_noop`: both the absent id and the empty
string id. -/
theorem C10_falsy_id_is_noop_witness :
    add_sent_job ⟨none, []⟩ 0 true [] = (false, []) ∧
    add_sent_job ⟨some "", []⟩ 7 true [⟨"a", ⟨some "a", []⟩, 0⟩] =
      (false, [⟨"a", ⟨some "a", []⟩, 0⟩]) :=
  ⟨C10_falsy_id_is_noop ⟨none, []⟩ 0 true [] (by decide),
   C10_falsy_id_is_noop ⟨some "", []⟩ 7 true [⟨"a", ⟨some "a", []⟩, 0⟩] (by decide)⟩

/-- C5, counterexample.  When the backend response is unparsable the stage
does fail open, but its reason is the literal `"ai-parse-failed"`
(app.py line 695), not `"classifier-unavailable"` as the claim states. -/
theorem C5_counterexample :
    ai_is_usa_hiring_post AiOutcome.parseFailed = (true, "ai-parse-failed") ∧
    "ai-parse-failed" ≠ "classifier-unavailable" := by
  decide

/-- C5, amended.  Every backend failure (HTTP error, unparsable response,
generic exception, unconfigured endpoint) fails open with `accept=true`;
the reasons are the code's own strings (`"ai-disabled"`,
`"ai-parse-failed"`, `"ai-error:..."`) rather than
`"classifier-unavailable"`.  Consequently an item that passes the recency
gate and triggers neither the promo override nor the disallowed-location
override is kept when the backend always errors. -/
theorem C5_fail_open (o : AiOutcome) (text : String) (hfail : isAiFailure o = true) :
    (ai_is_usa_hiring_post o).1 = true ∧
    ai_is_usa_hiring_post AiOutcome.notConfigured = (true, "ai-disabled") ∧
    ai_is_usa_hiring_post AiOutcome.parseFailed = (true, "ai-parse-failed") ∧
    (recent_time_search text = true →
     (is_promo_training text && !seems_hiring text) = false →
     is_disallowed_location text = none →
     (evaluate_item true o text).1 = true) := by
  have hopen : (ai_is_usa_hiring_post o).1 = true := by
    cases o <;> simp_all [isAiFailure, ai_is_usa_hiring_post]
  refine ⟨hopen, rfl, rfl, fun hrec hpromo hloc => ?_⟩
  rcases hkr : ai_is_usa_hiring_post o with ⟨k, r⟩
  rw [hkr] at hopen
  subst hopen
  simp [evaluate_item, hrec, hkr, apply_overrides, hpromo, hloc]

/-- Witness for `C5_fail_open`: a failing backend and a recent hiring text
that trips no override. -/
theorem C5_fail_open_witness :
    isAiFailure (AiOutcome.exn "boom") = true ∧
    recent_time_search "We are hiring a Backend Engineer in the USA, posted 2h ago" = true ∧
    (is_promo_training "We are hiring a Backend Engineer in the USA, posted 2h ago" &&
      !seems_hiring "We are hiring a Backend Engineer in the USA, posted 2h ago") = false ∧
    is_disallowed_location "We are hiring a Backend Engineer in the USA, posted 2h ago"
      = none ∧
    (evaluate_item true (AiOutcome.exn "boom")
      "We are hiring a Backend Engineer in the USA, posted 2h ago").1 = true :=
  ⟨by decide, by decide, by decide, by decide,
   (C5_fail_open (AiOutcome.exn "boom")
      "We are hiring a Backend Engineer in the USA, posted 2h ago" (by decide)).2.2.2
     (by decide) (by decide) (by decide)⟩

/-- C6, counterexample.  On the claim's own scenario text the override
does flip the decision to reject, but the appended marker is
`" | promo-training"` (app.py line 1792), so the reason does not contain
`"promo-override"`. -/
theorem C6_counterexample :
    apply_overrides true "ok" "free bootcamp, enroll now" =
      (false, "ok | promo-training") ∧
    containsSubStr "ok | promo-training" "promo-override" = false := by
  decide

/-- C6, amended.  Whenever the classifier said accept and the text matches
the promotional vocabulary but no hiring-intent term, the final decision
is reject with `" | promo-training"` appended to the reason (so the
reason contains `"promo-training"`, not `"promo-override"`); and the
overrides never flip a reject back to accept. -/
theorem C6_promo_override (reason text : String)
    (hpromo : is_promo_training text = true) (hhire : seems_hiring text = false) :
    apply_overrides true reason text = (false, reason ++ " | promo-training") ∧
    containsSubStr (reason ++ " | promo-training") "promo-training" = true ∧
    (∀ r' t', (apply_overrides false r' t').1 = false) := by
  refine ⟨by simp [apply_overrides, hpromo, hhire], ?_, fun r' t' => by simp [apply_overrides]⟩
  have h : containsSub "promo-training".data " | promo-training".data = true := by decide
  simpa [containsSubStr, String.data_append] using
    containsSub_append_right "promo-training".data reason.data " | promo-training".data h

/-- Witness for `C6_promo_override` at the claim's scenario text. -/
theorem C6_promo_override_witness :
    apply_overrides true "" "free bootcamp, enroll now" = (false, " | promo-training") ∧
    containsSubStr (" | promo-training") "promo-training" = true :=
  ⟨(C6_promo_override "" "free bootcamp, enroll now" (by decide) (by decide)).1,
   by simpa using (C6_promo_override "" "free bootcamp, enroll now" (by decide) (by decide)).2.1⟩

/-- C7, counterexample.  A token whose `expires_at` (5) is past the request
time (10) but which is still in `paused_sessions` is not rejected: the
handler never reads `expires_at` (app.py lines 3124-3125 check only map
membership), so the expired token is accepted with full side effects
(resume signalled, token cleared). -/
theorem C7_counterexample :
    api_submit_otp (some "tok") (some "123456") 10 true
        [("tok", ⟨0, 5, true⟩)] =
      ⟨200, [], true⟩ := by
  decide

/-- C7, amended.  The endpoint rejects with 400 and no side effect exactly
the requests whose token is absent or not in the paused-session map;
expiry is never consulted.  On success (known token, OTP present, live
driver, injection succeeded) it signals resume and clears the token. -/
theorem C7_token_gate (m : Sessions) (otp : Option String) (now : Nat) (injectOk : Bool) :
    api_submit_otp none otp now injectOk m = ⟨400, m, false⟩ ∧
    (∀ t, lookupTok m t = none → api_submit_otp (some t) otp now injectOk m = ⟨400, m, false⟩) ∧
    (∀ t sess o, lookupTok m t = some sess → t ≠ "" → o ≠ "" → sess.driverOk = true →
      api_submit_otp (some t) (some o) now true m = ⟨200, eraseTok m t, true⟩ ∧
      lookupTok (eraseTok m t) t = none) := by
  refine ⟨rfl, fun t hl => api_submit_otp_unknown m t otp now injectOk hl,
    fun t sess o hl ht ho hdrv => ?_⟩
  · constructor
    · simp [api_submit_otp, ht, hl, ho, hdrv]
    · exact lookupTok_eraseTok m t

/-- Witness for `C7_token_gate`. -/
theorem C7_token_gate_witness :
    api_submit_otp (some "bad") (some "1") 0 true [("tok", ⟨0, 5, true⟩)] =
      ⟨400, [("tok", ⟨0, 5, true⟩)], false⟩ ∧
    api_submit_otp (some "tok") (some "1") 0 true [("tok", ⟨0, 5, true⟩)] =
      ⟨200, eraseTok [("tok", ⟨0, 5, true⟩)] "tok", true⟩ :=
  ⟨((C7_token_gate [("tok", ⟨0, 5, true⟩)] (some "1") 0 true).2.1 "bad" (by decide)),
   ((C7_token_gate [("tok", ⟨0, 5, true⟩)] (some "1") 0 true).2.2 "tok" ⟨0, 5, true⟩ "1"
      (by decide) (by decide) (by decide) rfl).1⟩

/-- C8, counterexample.  The clear-all purge (`/admin/sent-jobs/clear`,
app.py lines 2733-2749) deletes every row without any backup call: the
store is emptied while the set of backups stays empty. -/
theorem C8_counterexample :
    admin_clear_sent_jobs ⟨[⟨"a", ⟨some "a", []⟩, 0⟩], []⟩ = (⟨[], []⟩, 200) := by
  decide

/-- C8, amended.  The delete-by-age, delete-by-ids and delete-by-contact-email
purges each take a timestamped backup of the current store before deleting
(and still delete when the backup copy fails), but the clear-all purge
deletes with no backup at all. -/
theorem C8_backup_before_delete (s : AdminState) (cutoff : Nat) (ids : List String)
    (email : String) :
    (admin_clear_sent_jobs s).1.backups = s.backups ∧
    (admin_clear_sent_jobs s).1.store = [] ∧
    (admin_delete_sent_jobs_older cutoff true s).1.backups = s.backups ++ [s.store] ∧
    (ids ≠ [] →
      (admin_delete_sent_jobs_by_ids ids true s).1.backups = s.backups ++ [s.store]) ∧
    (pyLowerStr (pyStripStr email) ≠ "" →
      (admin_delete_sent_jobs_by_email email true s).1.backups = s.backups ++ [s.store]) ∧
    (admin_delete_sent_jobs_older cutoff false s).1.backups = s.backups := by
  refine ⟨rfl, rfl, rfl, fun hids => ?_, fun hemail => ?_, rfl⟩
  · simp [admin_delete_sent_jobs_by_ids, hids, create_pre_delete_backup]
  · simp [admin_delete_sent_jobs_by_email, hemail, create_pre_delete_backup]

/-- Witness for `C8_backup_before_delete`. -/
theorem C8_backup_before_delete_witness :
    (admin_delete_sent_jobs_by_ids ["a"] true ⟨[⟨"a", ⟨some "a", []⟩, 0⟩], []⟩).1.backups =
      [] ++ [[⟨"a", ⟨some "a", []⟩, 0⟩]] ∧
    (admin_delete_sent_jobs_by_email "x@y.zz" true ⟨[⟨"a", ⟨some "a", []⟩, 0⟩], []⟩).1.backups =
      [] ++ [[⟨"a", ⟨some "a", []⟩, 0⟩]] :=
  ⟨(C8_backup_before_delete ⟨[⟨"a", ⟨some "a", []⟩, 0⟩], []⟩ 0 ["a"] "x@y.zz").2.2.2.1
      (by decide),
   (C8_backup_before_delete ⟨[⟨"a", ⟨some "a", []⟩, 0⟩], []⟩ 0 ["a"] "x@y.zz").2.2.2.2.1
      (by decide)⟩

/-- C9: a successful OTP submission removes the token from the
paused-session map, so any later submit-otp or remote click/type/key
request presenting the same token fails the shared membership gate and
is rejected with 400. -/
theorem C9_token_single_use (m : Sessions) (t : String) (otp otp2 : Option String)
    (now now2 : Nat) (injectOk injectOk2 xyOk performed : Bool)
    (hsucc : (api_submit_otp (some t) otp now injectOk m).status = 200) :
    lookupTok (api_submit_otp (some t) otp now injectOk m).sessions t = none ∧
    (api_submit_otp (some t) otp2 now2 injectOk2
        (api_submit_otp (some t) otp now injectOk m).sessions).status = 400 ∧
    api_remote_click (some t) xyOk performed
        (api_submit_otp (some t) otp now injectOk m).sessions = 400 ∧
    remote_token_rejected (some t)
        (api_submit_otp (some t) otp now injectOk m).sessions = true := by
  have hsess : (api_submit_otp (some t) otp now injectOk m).sessions = eraseTok m t := by
    by_cases ht : t = ""
    · simp [api_submit_otp, ht] at hsucc
    · cases hl : lookupTok m t with
      | none => simp [api_submit_otp, ht, hl] at hsucc
      | some sess =>
        cases otp with
        | none => simp [api_submit_otp, ht, hl] at hsucc
        | some o =>
          by_cases ho : o = ""
          · simp [api_submit_otp, ht, hl, ho] at hsucc
          · by_cases hdrv : sess.driverOk = true
            · by_cases hinj : injectOk = true
              · simp [api_submit_otp, ht, hl, ho, hdrv, hinj]
              · simp [api_submit_otp, ht, hl, ho, hdrv, hinj] at hsucc
            · simp [api_submit_otp, ht, hl, ho, hdrv] at hsucc
  have hnone : lookupTok (api_submit_otp (some t) otp now injectOk m).sessions t = none := by
    rw [hsess]; exact lookupTok_eraseTok m t
  have hrej : remote_token_rejected (some t)
      (api_submit_otp (some t) otp now injectOk m).sessions = true := by
    simp [remote_token_rejected, hnone]
  refine ⟨hnone, ?_, ?_, hrej⟩
  · rw [api_submit_otp_unknown _ t otp2 now2 injectOk2 hnone]
  · simp [api_remote_click, hrej]

/-- Witness for `C9_token_single_use`. -/
theorem C9_token_single_use_witness :
    lookupTok (api_submit_otp (some "tok") (some "1") 0 true
        [("tok", ⟨0, 5, true⟩)]).sessions "tok" = none ∧
    (api_submit_otp (some "tok") (some "2") 1 true
        (api_submit_otp (some "tok") (some "1") 0 true
          [("tok", ⟨0, 5, true⟩)]).sessions).status = 400 ∧
    api_remote_click (some "tok") true true
        (api_submit_otp (some "tok") (some "1") 0 true
          [("tok", ⟨0, 5, true⟩)]).sessions = 400 := by
  have h := C9_token_single_use [("tok", ⟨0, 5, true⟩)] "tok" (some "1") (some "2")
    0 1 true true true true (by decide)
  exact ⟨h.1, h.2.1, h.2.2.1⟩

/-- C4, counterexample.  On the claim's two scenario texts normalization
does NOT yield equal strings: the "·" separator that precedes "12 likes"
is not among the stripped tokens, so the second text normalizes to
`"hiring a backend engineer, remote us only, ·"` while the first yields
`"hiring a backend engineer, remote us only,"`; consequently the SHA-256
fingerprints differ, and the fingerprint carries the prefix `"feed:"`,
not `"text:"`. -/
theorem C4_counterexample :
    normalize_text_for_id "Hiring a Backend Engineer, remote US only, 2h" ≠
      normalize_text_for_id "Hiring a Backend Engineer, remote US only, 45m · 12 likes" ∧
    feed_stable_id "Hiring a Backend Engineer, remote US only, 2h" ≠
      feed_stable_id "Hiring a Backend Engineer, remote US only, 45m · 12 likes" ∧
    List.isPrefixOf "text:".data
      (feed_stable_id "Hiring a Backend Engineer, remote US only, 2h").data = false := by
  decide

/-- C4, amended.  Texts differing only in the volatile tokens themselves
are stable: replacing the relative timestamp "2h" by "45m", or appending
the like counter " 12 likes" (without the "·" separator, which
normalization does not remove), yields the same normalized string
`"hiring a backend engineer, remote us only,"` and hence the identical
fingerprint, which has the form `feed:<sha256 of the normalized text>`. -/
theorem C4_volatile_token_stability :
    normalize_text_for_id "Hiring a Backend Engineer, remote US only, 2h" =
      normalize_text_for_id "Hiring a Backend Engineer, remote US only, 45m" ∧
    normalize_text_for_id "Hiring a Backend Engineer, remote US only, 2h" =
      normalize_text_for_id "Hiring a Backend Engineer, remote US only, 2h 12 likes" ∧
    normalize_text_for_id "Hiring a Backend Engineer, remote US only, 2h" =
      "hiring a backend engineer, remote us only," ∧
    feed_stable_id "Hiring a Backend Engineer, remote US only, 2h" =
      feed_stable_id "Hiring a Backend Engineer, remote US only, 45m" ∧
    feed_stable_id "Hiring a Backend Engineer, remote US only, 2h" =
      feed_stable_id "Hiring a Backend Engineer, remote US only, 2h 12 likes" ∧
    feed_stable_id "Hiring a Backend Engineer, remote US only, 2h" =
      "feed:" ++ sha256Hex "hiring a backend engineer, remote us only," := by
  have h1 : normalize_text_for_id "Hiring a Backend Engineer, remote US only, 2h" =
      normalize_text_for_id "Hiring a Backend Engineer, remote US only, 45m" := by decide
  have h2 : normalize_text_for_id "Hiring a Backend Engineer, remote US only, 2h" =
      normalize_text_for_id "Hiring a Backend Engineer, remote US only, 2h 12 likes" := by
    decide
  have h3 : normalize_text_for_id "Hiring a Backend Engineer, remote US only, 2h" =
      "hiring a backend engineer, remote us only," := by decide
  exact ⟨h1, h2, h3,
    by rw [feed_stable_id, feed_stable_id, h1],
    by rw [feed_stable_id, feed_stable_id, h2],
    by rw [feed_stable_id, h3]⟩

end LinkedIn
